import Mathlib

/-!
Verification development for the HackApp gadget registry / shortcut claim
engine (src/main.py). The Python engine is shallowly embedded: the mutable
`HackAppEngine` object becomes an explicit state record threaded through the
operations, exceptions become an `Except HaxError` result (the Python code
performs all precondition checks before any mutation, so an error result
carrying no successor state is exactly the all-or-nothing semantics of the
source), Python ints become `Nat`/`Int`, Python dicts become association
lists with replace-in-place-or-append update (the insertion-order semantics
of a Python dict), and `time.time()` becomes an explicit `now : Nat`
parameter (integer epoch seconds; the source only ever compares times and
takes `int(now) % 5`).
-/

namespace HackApp

/-- Constant from src/main.py: domain separator for gadget hashes. -/
def HAX_DOMAIN_SEED : String := "HackApp.GadgetSplash.v1.0x9f5b2d8e4a6c0f3b7d9e1a5c8f2b4d6e0a3c5f7b9"

/-- Constant from src/main.py: global cap on gadget ids. -/
def HAX_MAX_GADGETS : Nat := 2048

/-- Constant from src/main.py: per-owner gadget quota. -/
def HAX_QUOTA_PER_USER : Nat := 32

/-- Constant from src/main.py: minimum registration fee in wei (0.002 ether). -/
def HAX_FEE_WEI : Nat := 2000000000000000

/-- Constant from src/main.py: basis-point denominator. -/
def HAX_BPS_DENOM : Nat := 10000

/-- Constant from src/main.py: operator fee in basis points. -/
def HAX_OPERATOR_FEE_BPS : Nat := 80

/-- Constant from src/main.py: base score awarded per claim. -/
def HAX_SCORE_BASE : Nat := 10

/-- Constant from src/main.py: per-user claim cooldown in seconds. -/
def HAX_MIN_CLAIM_INTERVAL_SEC : Nat := 60

/-- Gadget categories (enum HaxGadgetCategory in src/main.py). -/
inductive HaxGadgetCategory where
  | KEYBOARD
  | AUTOMATION
  | SNIPPET
  | WORKFLOW
  | MACROS
deriving DecidableEq

/-- Efficiency tiers (enum HaxEfficiencyTier in src/main.py). The source
constructor for the fifth category of gadgets is named after the "macro"
category string; it is spelled MACROS here because Lean reserves the source
spelling. -/
inductive HaxEfficiencyTier where
  | BRONZE
  | SILVER
  | GOLD
  | PLATINUM
  | LEGEND
deriving DecidableEq

/-- Lower bound of each tier's inclusive score range (src/main.py enum values). -/
def HaxEfficiencyTier.min_score : HaxEfficiencyTier → Int
  | .BRONZE => 0
  | .SILVER => 100
  | .GOLD => 500
  | .PLATINUM => 2000
  | .LEGEND => 10000

/-- Upper bound of each tier's inclusive score range (src/main.py enum values). -/
def HaxEfficiencyTier.max_score : HaxEfficiencyTier → Int
  | .BRONZE => 99
  | .SILVER => 499
  | .GOLD => 1999
  | .PLATINUM => 9999
  | .LEGEND => 1000000000

/-- Iteration order of the HaxEfficiencyTier enum (Python iterates members in
declaration order). -/
def haxTierMembers : List HaxEfficiencyTier :=
  [.BRONZE, .SILVER, .GOLD, .PLATINUM, .LEGEND]

/-- HaxEfficiencyTier.from_score in src/main.py: scan the members in order and
return the first whose inclusive range contains the score; default to LEGEND
when no range matches. -/
def HaxEfficiencyTier.from_score (score : Int) : HaxEfficiencyTier :=
  (haxTierMembers.find? fun t =>
    decide (t.min_score ≤ score ∧ score ≤ t.max_score)).getD .LEGEND

/-- Error taxonomy: one constructor per exception class in src/main.py, each
carrying the arguments the exception constructor receives. -/
inductive HaxError where
  | Paused
  | FeeRequired (required_wei : Nat)
  | QuotaExceeded (user : String) (count : Nat) (limit : Nat)
  | InvalidGadgetId (gadget_id : Nat)
  | GadgetInactive (gadget_id : Nat)
  | ClaimTooSoon (user : String) (wait_sec : Nat)
  | NotOperator (addr : String)
deriving DecidableEq

/-- Dataclass HaxGadget from src/main.py. -/
structure HaxGadget where
  gadget_id : Nat
  owner : String
  gadget_hash : String
  category : HaxGadgetCategory
  registered_at : Nat
  active : Bool
  claim_count : Nat
deriving DecidableEq

/-- Dataclass HaxShortcut from src/main.py. -/
structure HaxShortcut where
  shortcut_id : Nat
  gadget_id : Nat
  claimer : String
  claimed_at : Nat
  score_added : Nat
deriving DecidableEq

/-- Association-list lookup, modelling `d.get(k)` / `k in d` on a Python dict
(the first matching key wins; keys are kept unique by aset). -/
def alookup {κ α : Type} [DecidableEq κ] (k : κ) : List (κ × α) → Option α
  | [] => none
  | (k', v) :: rest => if k = k' then some v else alookup k rest

/-- Association-list read with default, modelling `d.get(k, default)`. -/
def agetD {κ α : Type} [DecidableEq κ] (k : κ) (m : List (κ × α)) (d : α) : α :=
  (alookup k m).getD d

/-- Association-list store, modelling `d[k] = v` on a Python dict: replace the
value in place if the key is present, else append the new binding. -/
def aset {κ α : Type} [DecidableEq κ] (k : κ) (v : α) : List (κ × α) → List (κ × α)
  | [] => [(k, v)]
  | (k', v') :: rest => if k = k' then (k, v) :: rest else (k', v') :: aset k v rest

/-- Models hashlib.sha256(...).hexdigest() over the domain-separated input of
hax_hash_gadget in src/main.py. The spec fixes no digest algorithm ("any
collision-resistant 256-bit digest is acceptable ... only uniqueness and
determinism-per-input" matter), so the digest is embedded as the injective
identity encoding of the hashed data. -/
def hax_hash_gadget (payload : String) : String :=
  HAX_DOMAIN_SEED ++ "|" ++ payload

/-- State of class HackAppEngine in src/main.py (one field per instance
attribute set in its constructor; the unused `_lock` flag is omitted). -/
structure HackAppEngine where
  paused : Bool
  gadget_nonce : Nat
  shortcut_nonce : Nat
  gadgets : List (Nat × HaxGadget)
  shortcuts : List (Nat × HaxShortcut)
  gadget_ids_by_owner : List (String × List Nat)
  shortcut_count_by_user : List (String × Nat)
  efficiency_score : List (String × Nat)
  last_claim_time : List (String × Nat)
  total_fees_wei : Nat
deriving DecidableEq

/-- HackAppEngine.__init__ in src/main.py. -/
def mkEngine (paused : Bool) : HackAppEngine :=
  { paused := paused
    gadget_nonce := 0
    shortcut_nonce := 0
    gadgets := []
    shortcuts := []
    gadget_ids_by_owner := []
    shortcut_count_by_user := []
    efficiency_score := []
    last_claim_time := []
    total_fees_wei := 0 }

/-- HackAppEngine.register_gadget in src/main.py: paused check, fee check,
per-owner quota check, global cap check, then allocate the next id, build the
gadget, store it, append the id to the owner's list and add the fee. -/
def register_gadget (e : HackAppEngine) (owner payload : String)
    (category : HaxGadgetCategory) (fee_wei : Nat) (now : Nat) :
    Except HaxError (HackAppEngine × HaxGadget) :=
  if e.paused then Except.error HaxError.Paused
  else if fee_wei < HAX_FEE_WEI then Except.error (HaxError.FeeRequired HAX_FEE_WEI)
  else
    let current := (agetD owner e.gadget_ids_by_owner []).length
    if HAX_QUOTA_PER_USER ≤ current then
      Except.error (HaxError.QuotaExceeded owner current HAX_QUOTA_PER_USER)
    else if HAX_MAX_GADGETS ≤ e.gadget_nonce then
      Except.error (HaxError.InvalidGadgetId e.gadget_nonce)
    else
      let gid := e.gadget_nonce + 1
      let g : HaxGadget :=
        { gadget_id := gid
          owner := owner
          gadget_hash := hax_hash_gadget (payload ++ toString gid)
          category := category
          registered_at := now
          active := true
          claim_count := 0 }
      Except.ok
        ({ e with
            gadget_nonce := gid
            gadgets := aset gid g e.gadgets
            gadget_ids_by_owner :=
              aset owner (agetD owner e.gadget_ids_by_owner [] ++ [gid]) e.gadget_ids_by_owner
            total_fees_wei := e.total_fees_wei + fee_wei }, g)

/-- HackAppEngine.claim_shortcut in src/main.py: paused check, existence
check, active check, cooldown check (last claim time defaults to 0; the
ClaimTooSoon error carries the constant HAX_MIN_CLAIM_INTERVAL_SEC), then
allocate the next shortcut id, award 10 + now % 5 score and update the maps
and the gadget's claim_count. -/
def claim_shortcut (e : HackAppEngine) (gadget_id : Nat) (claimer : String) (now : Nat) :
    Except HaxError (HackAppEngine × HaxShortcut) :=
  if e.paused then Except.error HaxError.Paused
  else
    match alookup gadget_id e.gadgets with
    | none => Except.error (HaxError.InvalidGadgetId gadget_id)
    | some g =>
      if g.active = false then Except.error (HaxError.GadgetInactive gadget_id)
      else if now < agetD claimer e.last_claim_time 0 + HAX_MIN_CLAIM_INTERVAL_SEC then
        Except.error (HaxError.ClaimTooSoon claimer HAX_MIN_CLAIM_INTERVAL_SEC)
      else
        let sid := e.shortcut_nonce + 1
        let score := HAX_SCORE_BASE + now % 5
        let s : HaxShortcut :=
          { shortcut_id := sid
            gadget_id := gadget_id
            claimer := claimer
            claimed_at := now
            score_added := score }
        Except.ok
          ({ e with
              shortcut_nonce := sid
              shortcuts := aset sid s e.shortcuts
              shortcut_count_by_user :=
                aset claimer (agetD claimer e.shortcut_count_by_user 0 + 1) e.shortcut_count_by_user
              efficiency_score :=
                aset claimer (agetD claimer e.efficiency_score 0 + score) e.efficiency_score
              last_claim_time := aset claimer now e.last_claim_time
              gadgets := aset gadget_id { g with claim_count := g.claim_count + 1 } e.gadgets }, s)

/-- HackAppEngine.set_gadget_active in src/main.py: existence check, owner
check, then set the flag. The source performs no paused check here. -/
def set_gadget_active (e : HackAppEngine) (gadget_id : Nat) (owner : String) (active : Bool) :
    Except HaxError HackAppEngine :=
  match alookup gadget_id e.gadgets with
  | none => Except.error (HaxError.InvalidGadgetId gadget_id)
  | some g =>
    if g.owner ≠ owner then Except.error (HaxError.NotOperator owner)
    else Except.ok { e with gadgets := aset gadget_id { g with active := active } e.gadgets }

/-- Result record of HackAppEngine.get_global_stats in src/main.py. -/
structure HaxGlobalStats where
  total_gadgets : Nat
  total_shortcuts : Nat
  total_fees_wei : Nat
  unique_owners : Nat
  unique_claimers : Nat
deriving DecidableEq

/-- HackAppEngine.get_global_stats in src/main.py. -/
def get_global_stats (e : HackAppEngine) : HaxGlobalStats :=
  { total_gadgets := e.gadget_nonce
    total_shortcuts := e.shortcut_nonce
    total_fees_wei := e.total_fees_wei
    unique_owners := e.gadget_ids_by_owner.length
    unique_claimers := e.shortcut_count_by_user.length }

/-- Dataclass HaxUserStats from src/main.py. -/
structure HaxUserStats where
  user : String
  gadget_count : Nat
  shortcut_count : Nat
  efficiency_score : Nat
  tier : HaxEfficiencyTier
  last_claim_at : Nat
deriving DecidableEq

/-- HackAppEngine.get_user_stats in src/main.py. -/
def get_user_stats (e : HackAppEngine) (user : String) : HaxUserStats :=
  let score := agetD user e.efficiency_score 0
  { user := user
    gadget_count := (agetD user e.gadget_ids_by_owner []).length
    shortcut_count := agetD user e.shortcut_count_by_user 0
    efficiency_score := score
    tier := HaxEfficiencyTier.from_score (score : Int)
    last_claim_at := agetD user e.last_claim_time 0 }

/-- hax_operator_fee_wei in src/main.py. -/
def hax_operator_fee_wei (total_wei : Nat) : Nat :=
  total_wei * HAX_OPERATOR_FEE_BPS / HAX_BPS_DENOM

/-- hax_treasury_wei in src/main.py. -/
def hax_treasury_wei (total_wei : Nat) : Nat :=
  total_wei - hax_operator_fee_wei total_wei

/-- Category-string parsing, modelling the `HaxGadgetCategory(value)` enum
constructor call in src/main.py (raises ValueError, i.e. returns none, on an
unknown value string). -/
def HaxGadgetCategory.ofValue : String → Option HaxGadgetCategory
  | "keyboard" => some .KEYBOARD
  | "automation" => some .AUTOMATION
  | "snippet" => some .SNIPPET
  | "workflow" => some .WORKFLOW
  | "macro" => some .MACROS
  | _ => none

/-- One entry of the parsed `gadgets` sequence handed to
hax_import_gadgets_json: a JSON object with the three fields the importer
reads (each possibly absent), or a malformed entry (not an object), whose
field access raises and is swallowed by the importer. -/
inductive HaxImportEntry where
  | obj (owner : Option String) (gadget_hash : Option String) (category : Option String)
  | malformed
deriving DecidableEq

/-- One iteration of the import loop of hax_import_gadgets_json in
src/main.py: take owner (default "imported"), payload = gadget_hash (default
"") + current count, parse the category (default "snippet"), call
register_gadget with fee_wei = 0 and count the success; any exception (a
malformed entry, an unknown category value, or a register_gadget failure) is
swallowed and the accumulator is returned unchanged. -/
def hax_import_step (now : Nat) (acc : HackAppEngine × Nat) (entry : HaxImportEntry) :
    HackAppEngine × Nat :=
  match entry with
  | .malformed => acc
  | .obj owner gh cat =>
    let ow := owner.getD "imported"
    let payload := gh.getD "" ++ toString acc.2
    match HaxGadgetCategory.ofValue (cat.getD "snippet") with
    | none => acc
    | some c =>
      match register_gadget acc.1 ow payload c 0 now with
      | Except.error _ => acc
      | Except.ok (e', _) => (e', acc.2 + 1)

/-- hax_import_gadgets_json in src/main.py, modelled on the parsed `gadgets`
sequence: fold the per-entry import step over the entries, starting from the
given engine and a zero count, and return the final engine and the count of
successfully imported entries. -/
def hax_import_gadgets_json (e : HackAppEngine) (entries : List HaxImportEntry) (now : Nat) :
    HackAppEngine × Nat :=
  entries.foldl (hax_import_step now) (e, 0)

/-- The list [1, 2, ..., n]: the gadget-id key set a well-formed engine holds. -/
def idsUpTo : Nat → List Nat
  | 0 => []
  | n + 1 => idsUpTo n ++ [n + 1]

/-- Well-formedness invariant of the engine's gadget map: the keys are
exactly 1 .. gadget_nonce in order, and every stored gadget records its own
key as its gadget_id. -/
def EngineWF (e : HackAppEngine) : Prop :=
  e.gadgets.map Prod.fst = idsUpTo e.gadget_nonce ∧
  ∀ p ∈ e.gadgets, (p.2).gadget_id = p.1

/-! Concrete states used to exercise the theorems on explicit inputs. -/

/-- A registered gadget with id 1 owned by "al", as register_gadget creates it. -/
def gadget1 : HaxGadget :=
  { gadget_id := 1
    owner := "al"
    gadget_hash := hax_hash_gadget "p11"
    category := .SNIPPET
    registered_at := 0
    active := true
    claim_count := 0 }

/-- An unpaused engine holding the single active gadget 1. -/
def activeEngine : HackAppEngine :=
  { mkEngine false with gadget_nonce := 1, gadgets := [(1, gadget1)] }

/-- A paused engine holding the single active gadget 1. -/
def pausedEngine : HackAppEngine :=
  { mkEngine true with gadget_nonce := 1, gadgets := [(1, gadget1)] }

/-- The paused engine after gadget 1 has been switched off. -/
def pausedEngineOff : HackAppEngine :=
  { pausedEngine with gadgets := [(1, { gadget1 with active := false })] }

/-- The active engine with claimer "bob" recorded as having last claimed at
time 100. -/
def cooldownEngine : HackAppEngine :=
  { activeEngine with last_claim_time := [("bob", 100)] }

/-- An engine in which owner "al" holds 31 gadget ids. -/
def quotaEngine31 : HackAppEngine :=
  { mkEngine false with gadget_nonce := 31, gadget_ids_by_owner := [("al", List.replicate 31 1)] }

/-- An engine in which owner "al" holds 32 gadget ids (the quota). -/
def quotaEngine32 : HackAppEngine :=
  { mkEngine false with gadget_nonce := 32, gadget_ids_by_owner := [("al", List.replicate 32 1)] }

/-- An engine whose global gadget counter has reached the cap. -/
def capEngine : HackAppEngine :=
  { mkEngine false with gadget_nonce := 2048 }

/-- The result of one successful registration on a fresh engine. -/
def demoRegPair : HackAppEngine × HaxGadget :=
  match register_gadget (mkEngine false) "al" "p1" .SNIPPET HAX_FEE_WEI 5 with
  | Except.ok p => p
  | Except.error _ => (mkEngine false, gadget1)

/-- The result of one successful claim of gadget 1 by "bob" at time 63. -/
def demoClaimPair : HackAppEngine × HaxShortcut :=
  match claim_shortcut activeEngine 1 "bob" 63 with
  | Except.ok p => p
  | Except.error _ =>
    (activeEngine,
     { shortcut_id := 0, gadget_id := 0, claimer := "", claimed_at := 0, score_added := 0 })

/-! Helper lemmas about the association-list dictionary model. -/

theorem alookup_aset_self {κ α : Type} [DecidableEq κ] (k : κ) (v : α) (m : List (κ × α)) :
    alookup k (aset k v m) = some v := by
  induction m with
  | nil => simp [aset, alookup]
  | cons p rest ih =>
    obtain ⟨k', v'⟩ := p
    by_cases h : k = k' <;> simp [aset, alookup, h, ih]

theorem agetD_aset_self {κ α : Type} [DecidableEq κ] (k : κ) (v : α) (m : List (κ × α)) (d : α) :
    agetD k (aset k v m) d = v := by
  simp [agetD, alookup_aset_self]

theorem aset_of_alookup_none {κ α : Type} [DecidableEq κ] (k : κ) (v : α) (m : List (κ × α))
    (h : alookup k m = none) : aset k v m = m ++ [(k, v)] := by
  induction m with
  | nil => simp [aset]
  | cons p rest ih =>
    obtain ⟨k', v'⟩ := p
    by_cases hk : k = k'
    · simp [alookup, hk] at h
    · simp [alookup, hk] at h
      simp [aset, hk, ih h]

theorem map_fst_aset_of_alookup_some {κ α : Type} [DecidableEq κ] (k : κ) (v w : α)
    (m : List (κ × α)) (h : alookup k m = some w) :
    (aset k v m).map Prod.fst = m.map Prod.fst := by
  induction m with
  | nil => simp [alookup] at h
  | cons p rest ih =>
    obtain ⟨k', v'⟩ := p
    by_cases hk : k = k'
    · simp [aset, hk]
    · simp [alookup, hk] at h
      simp [aset, hk, ih h]

theorem mem_of_alookup_some {κ α : Type} [DecidableEq κ] (k : κ) (v : α) (m : List (κ × α))
    (h : alookup k m = some v) : (k, v) ∈ m := by
  induction m with
  | nil => simp [alookup] at h
  | cons p rest ih =>
    obtain ⟨k', v'⟩ := p
    by_cases hk : k = k'
    · simp [alookup, hk] at h
      simp [hk, h]
    · simp [alookup, hk] at h
      exact List.mem_cons_of_mem _ (ih h)

theorem mem_aset {κ α : Type} [DecidableEq κ] (k : κ) (v : α) (m : List (κ × α)) (p : κ × α)
    (h : p ∈ aset k v m) : p = (k, v) ∨ p ∈ m := by
  induction m with
  | nil => simpa [aset] using h
  | cons q rest ih =>
    obtain ⟨k', v'⟩ := q
    by_cases hk : k = k'
    · simp [aset, hk] at h
      rcases h with h | h
      · exact Or.inl (by simp [h, hk])
      · exact Or.inr (List.mem_cons_of_mem _ h)
    · simp [aset, hk] at h
      rcases h with h | h
      · exact Or.inr (by simp [h])
      · rcases ih h with h' | h'
        · exact Or.inl h'
        · exact Or.inr (List.mem_cons_of_mem _ h')

theorem alookup_eq_none {κ α : Type} [DecidableEq κ] (k : κ) (m : List (κ × α))
    (h : k ∉ m.map Prod.fst) : alookup k m = none := by
  induction m with
  | nil => simp [alookup]
  | cons p rest ih =>
    obtain ⟨k', v'⟩ := p
    simp only [List.map_cons, List.mem_cons] at h
    push_neg at h
    simp [alookup, h.1, ih h.2]

theorem length_idsUpTo (n : Nat) : (idsUpTo n).length = n := by
  induction n with
  | zero => simp [idsUpTo]
  | succ n ih => simp [idsUpTo, ih]

theorem mem_idsUpTo (m n : Nat) : m ∈ idsUpTo n ↔ 1 ≤ m ∧ m ≤ n := by
  induction n with
  | zero => simp [idsUpTo]; omega
  | succ n ih => simp [idsUpTo, ih]; omega

/-! Inversion lemmas characterising the outcomes of the engine operations. -/

theorem register_gadget_ok_inv (e : HackAppEngine) (o pl : String) (c : HaxGadgetCategory)
    (f now : Nat) (e' : HackAppEngine) (g : HaxGadget)
    (h : register_gadget e o pl c f now = Except.ok (e', g)) :
    e.paused = false ∧ HAX_FEE_WEI ≤ f ∧
    (agetD o e.gadget_ids_by_owner []).length < HAX_QUOTA_PER_USER ∧
    e.gadget_nonce < HAX_MAX_GADGETS ∧
    g = { gadget_id := e.gadget_nonce + 1
          owner := o
          gadget_hash := hax_hash_gadget (pl ++ toString (e.gadget_nonce + 1))
          category := c
          registered_at := now
          active := true
          claim_count := 0 } ∧
    e' = { e with
            gadget_nonce := e.gadget_nonce + 1
            gadgets := aset (e.gadget_nonce + 1) g e.gadgets
            gadget_ids_by_owner :=
              aset o (agetD o e.gadget_ids_by_owner [] ++ [e.gadget_nonce + 1])
                e.gadget_ids_by_owner
            total_fees_wei := e.total_fees_wei + f } := by
  unfold register_gadget at h
  by_cases h1 : e.paused = true
  · simp [h1] at h
  · have hpf : e.paused = false := by simpa using h1
    rw [hpf] at h
    simp only [Bool.false_eq_true, if_false] at h
    by_cases h2 : f < HAX_FEE_WEI
    · simp [h2] at h
    · rw [if_neg h2] at h
      by_cases h3 : HAX_QUOTA_PER_USER ≤ (agetD o e.gadget_ids_by_owner []).length
      · simp [h3] at h
      · rw [if_neg h3] at h
        by_cases h4 : HAX_MAX_GADGETS ≤ e.gadget_nonce
        · simp [h4] at h
        · rw [if_neg h4] at h
          simp only [Except.ok.injEq, Prod.mk.injEq] at h
          obtain ⟨hE, hG⟩ := h
          refine ⟨hpf, by omega, by omega, by omega, hG.symm, ?_⟩
          rw [← hE, ← hG, hpf]

theorem claim_shortcut_ok_inv (e : HackAppEngine) (gid : Nat) (cl : String) (now : Nat)
    (e' : HackAppEngine) (s : HaxShortcut)
    (h : claim_shortcut e gid cl now = Except.ok (e', s)) :
    ∃ g, e.paused = false ∧ alookup gid e.gadgets = some g ∧ g.active = true ∧
      agetD cl e.last_claim_time 0 + HAX_MIN_CLAIM_INTERVAL_SEC ≤ now ∧
      s = { shortcut_id := e.shortcut_nonce + 1
            gadget_id := gid
            claimer := cl
            claimed_at := now
            score_added := HAX_SCORE_BASE + now % 5 } ∧
      e' = { e with
              shortcut_nonce := e.shortcut_nonce + 1
              shortcuts := aset (e.shortcut_nonce + 1) s e.shortcuts
              shortcut_count_by_user :=
                aset cl (agetD cl e.shortcut_count_by_user 0 + 1) e.shortcut_count_by_user
              efficiency_score :=
                aset cl (agetD cl e.efficiency_score 0 + (HAX_SCORE_BASE + now % 5))
                  e.efficiency_score
              last_claim_time := aset cl now e.last_claim_time
              gadgets := aset gid { g with claim_count := g.claim_count + 1 } e.gadgets } := by
  unfold claim_shortcut at h
  by_cases hp : e.paused = true
  · simp [hp] at h
  · have hpf : e.paused = false := by simpa using hp
    rw [hpf] at h
    simp only [Bool.false_eq_true, if_false] at h
    rcases hm : alookup gid e.gadgets with _ | g
    · rw [hm] at h
      simp at h
    · rw [hm] at h
      simp only at h
      by_cases ha : g.active = false
      · simp [ha] at h
      · rw [if_neg ha] at h
        by_cases hc : now < agetD cl e.last_claim_time 0 + HAX_MIN_CLAIM_INTERVAL_SEC
        · simp [hc] at h
        · rw [if_neg hc] at h
          simp only [Except.ok.injEq, Prod.mk.injEq] at h
          obtain ⟨hE, hS⟩ := h
          refine ⟨g, hpf, rfl, by simpa using ha, by omega, hS.symm, ?_⟩
          rw [← hE, ← hS, hpf]

theorem claim_shortcut_ok_eq (e : HackAppEngine) (gid : Nat) (cl : String) (now : Nat)
    (g : HaxGadget) (hp : e.paused = false) (hg : alookup gid e.gadgets = some g)
    (ha : g.active = true)
    (hc : agetD cl e.last_claim_time 0 + HAX_MIN_CLAIM_INTERVAL_SEC ≤ now) :
    claim_shortcut e gid cl now =
      Except.ok
        ({ e with
            shortcut_nonce := e.shortcut_nonce + 1
            shortcuts :=
              aset (e.shortcut_nonce + 1)
                { shortcut_id := e.shortcut_nonce + 1
                  gadget_id := gid
                  claimer := cl
                  claimed_at := now
                  score_added := HAX_SCORE_BASE + now % 5 } e.shortcuts
            shortcut_count_by_user :=
              aset cl (agetD cl e.shortcut_count_by_user 0 + 1) e.shortcut_count_by_user
            efficiency_score :=
              aset cl (agetD cl e.efficiency_score 0 + (HAX_SCORE_BASE + now % 5))
                e.efficiency_score
            last_claim_time := aset cl now e.last_claim_time
            gadgets := aset gid { g with claim_count := g.claim_count + 1 } e.gadgets },
          { shortcut_id := e.shortcut_nonce + 1
            gadget_id := gid
            claimer := cl
            claimed_at := now
            score_added := HAX_SCORE_BASE + now % 5 }) := by
  unfold claim_shortcut
  rw [hp]
  simp only [Bool.false_eq_true, if_false]
  rw [hg]
  simp only
  rw [if_neg (by simp [ha]), if_neg (by omega)]

theorem claim_shortcut_too_soon_eq (e : HackAppEngine) (gid : Nat) (cl : String) (now : Nat)
    (g : HaxGadget) (hp : e.paused = false) (hg : alookup gid e.gadgets = some g)
    (ha : g.active = true)
    (hc : now < agetD cl e.last_claim_time 0 + HAX_MIN_CLAIM_INTERVAL_SEC) :
    claim_shortcut e gid cl now =
      Except.error (HaxError.ClaimTooSoon cl HAX_MIN_CLAIM_INTERVAL_SEC) := by
  unfold claim_shortcut
  rw [hp]
  simp only [Bool.false_eq_true, if_false]
  rw [hg]
  simp only
  rw [if_neg (by simp [ha]), if_pos hc]

theorem set_gadget_active_ok_inv (e : HackAppEngine) (gid : Nat) (o : String) (a : Bool)
    (e' : HackAppEngine) (h : set_gadget_active e gid o a = Except.ok e') :
    ∃ g, alookup gid e.gadgets = some g ∧ g.owner = o ∧
      e' = { e with gadgets := aset gid { g with active := a } e.gadgets } := by
  rcases hm : alookup gid e.gadgets with _ | g
  · simp [set_gadget_active, hm] at h
  · simp only [set_gadget_active, hm] at h
    split_ifs at h with ho
    simp only [Except.ok.injEq] at h
    exact ⟨g, rfl, by simpa using ho, h.symm⟩

theorem register_gadget_ok_eq (e : HackAppEngine) (o pl : String) (c : HaxGadgetCategory)
    (f now : Nat) (hp : e.paused = false) (hf : HAX_FEE_WEI ≤ f)
    (hq : (agetD o e.gadget_ids_by_owner []).length < HAX_QUOTA_PER_USER)
    (hn : e.gadget_nonce < HAX_MAX_GADGETS) :
    register_gadget e o pl c f now =
      Except.ok
        ({ e with
            gadget_nonce := e.gadget_nonce + 1
            gadgets :=
              aset (e.gadget_nonce + 1)
                { gadget_id := e.gadget_nonce + 1
                  owner := o
                  gadget_hash := hax_hash_gadget (pl ++ toString (e.gadget_nonce + 1))
                  category := c
                  registered_at := now
                  active := true
                  claim_count := 0 } e.gadgets
            gadget_ids_by_owner :=
              aset o (agetD o e.gadget_ids_by_owner [] ++ [e.gadget_nonce + 1])
                e.gadget_ids_by_owner
            total_fees_wei := e.total_fees_wei + f },
          { gadget_id := e.gadget_nonce + 1
            owner := o
            gadget_hash := hax_hash_gadget (pl ++ toString (e.gadget_nonce + 1))
            category := c
            registered_at := now
            active := true
            claim_count := 0 }) := by
  unfold register_gadget
  rw [hp]
  simp only [Bool.false_eq_true, if_false]
  rw [if_neg (by omega), if_neg (by omega), if_neg (by omega)]

theorem register_gadget_zero_fee (e : HackAppEngine) (o pl : String) (c : HaxGadgetCategory)
    (now : Nat) :
    register_gadget e o pl c 0 now =
      Except.error (if e.paused then HaxError.Paused else HaxError.FeeRequired HAX_FEE_WEI) := by
  unfold register_gadget
  by_cases hp : e.paused = true
  · simp [hp]
  · have hpf : e.paused = false := by simpa using hp
    rw [hpf]
    simp only [Bool.false_eq_true, if_false]
    rw [if_pos (show (0 : Nat) < HAX_FEE_WEI by decide)]

theorem hax_import_step_id (now : Nat) (acc : HackAppEngine × Nat) (entry : HaxImportEntry) :
    hax_import_step now acc entry = acc := by
  cases entry with
  | malformed => rfl
  | obj ow gh cat =>
    rcases hcv : HaxGadgetCategory.ofValue (cat.getD "snippet") with _ | c
    · simp [hax_import_step, hcv]
    · simp [hax_import_step, hcv, register_gadget_zero_fee]

theorem from_score_eq (s : Int) :
    HaxEfficiencyTier.from_score s =
      if 0 ≤ s ∧ s ≤ 99 then .BRONZE
      else if 100 ≤ s ∧ s ≤ 499 then .SILVER
      else if 500 ≤ s ∧ s ≤ 1999 then .GOLD
      else if 2000 ≤ s ∧ s ≤ 9999 then .PLATINUM
      else .LEGEND := by
  by_cases h1 : 0 ≤ s ∧ s ≤ 99 <;>
    by_cases h2 : 100 ≤ s ∧ s ≤ 499 <;>
      by_cases h3 : 500 ≤ s ∧ s ≤ 1999 <;>
        by_cases h4 : 2000 ≤ s ∧ s ≤ 9999 <;>
          simp [HaxEfficiencyTier.from_score, haxTierMembers, List.find?,
            HaxEfficiencyTier.min_score, HaxEfficiencyTier.max_score, h1, h2, h3, h4] <;>
            cases decide ((10000 : Int) ≤ s) && decide (s ≤ 1000000000) <;> rfl

/-! Claim theorems. -/

/-- C1: register_gadget checks its preconditions in the fixed order paused
flag, fee ≥ 2000000000000000, owner count < 32, global counter < 2048, each
failing with its own distinct error; in the Except embedding an error result
carries no successor state, mirroring that the source raises before any
mutation, so the engine state (counters, maps, fee total) is unchanged on
every failure. With the other preconditions met, an owner holding 31 gadgets
registers successfully (the 32nd registration, leaving the owner with 32)
and an owner holding 32 fails with QuotaExceeded (the 33rd). -/
theorem c1_register_precondition_order :
    (∀ e o pl c f now, e.paused = true →
      register_gadget e o pl c f now = Except.error HaxError.Paused) ∧
    (∀ e o pl c f now, e.paused = false → f < 2000000000000000 →
      register_gadget e o pl c f now =
        Except.error (HaxError.FeeRequired 2000000000000000)) ∧
    (∀ e o pl c f now, e.paused = false → 2000000000000000 ≤ f →
      32 ≤ (agetD o e.gadget_ids_by_owner []).length →
      register_gadget e o pl c f now =
        Except.error (HaxError.QuotaExceeded o (agetD o e.gadget_ids_by_owner []).length 32)) ∧
    (∀ e o pl c f now, e.paused = false → 2000000000000000 ≤ f →
      (agetD o e.gadget_ids_by_owner []).length < 32 → 2048 ≤ e.gadget_nonce →
      register_gadget e o pl c f now = Except.error (HaxError.InvalidGadgetId e.gadget_nonce)) ∧
    (∀ e o pl c f now, e.paused = false → 2000000000000000 ≤ f →
      (agetD o e.gadget_ids_by_owner []).length = 31 → e.gadget_nonce < 2048 →
      ∃ e' g, register_gadget e o pl c f now = Except.ok (e', g) ∧
        (agetD o e'.gadget_ids_by_owner []).length = 32) ∧
    (∀ e o pl c f now, e.paused = false → 2000000000000000 ≤ f →
      (agetD o e.gadget_ids_by_owner []).length = 32 →
      register_gadget e o pl c f now = Except.error (HaxError.QuotaExceeded o 32 32)) := by
  refine ⟨?_, ?_, ?_, ?_, ?_, ?_⟩
  · intro e o pl c f now hp
    unfold register_gadget
    rw [hp]
    simp
  · intro e o pl c f now hp hf
    unfold register_gadget HAX_FEE_WEI
    rw [hp]
    simp only [Bool.false_eq_true, if_false]
    rw [if_pos hf]
  · intro e o pl c f now hp hf hq
    unfold register_gadget HAX_FEE_WEI HAX_QUOTA_PER_USER
    rw [hp]
    simp only [Bool.false_eq_true, if_false]
    rw [if_neg (by omega), if_pos hq]
  · intro e o pl c f now hp hf hq hn
    unfold register_gadget HAX_FEE_WEI HAX_QUOTA_PER_USER HAX_MAX_GADGETS
    rw [hp]
    simp only [Bool.false_eq_true, if_false]
    rw [if_neg (by omega), if_neg (by omega), if_pos hn]
  · intro e o pl c f now hp hf hq hn
    refine ⟨_, _, register_gadget_ok_eq e o pl c f now hp
      (by unfold HAX_FEE_WEI; omega) (by unfold HAX_QUOTA_PER_USER; omega)
      (by unfold HAX_MAX_GADGETS; omega), ?_⟩
    simp [agetD_aset_self, hq]
  · intro e o pl c f now hp hf hq
    unfold register_gadget HAX_FEE_WEI HAX_QUOTA_PER_USER
    rw [hp]
    simp only [Bool.false_eq_true, if_false]
    rw [if_neg (by omega), if_pos (by omega), hq]

/-- C1 witness: the six branches exercised on explicit engines. -/
theorem c1_register_precondition_order_witness :
    register_gadget (mkEngine true) "al" "p" .SNIPPET 2000000000000000 0 =
      Except.error HaxError.Paused ∧
    register_gadget (mkEngine false) "al" "p" .SNIPPET 7 0 =
      Except.error (HaxError.FeeRequired 2000000000000000) ∧
    register_gadget quotaEngine32 "al" "p" .SNIPPET 2000000000000000 0 =
      Except.error (HaxError.QuotaExceeded "al" 32 32) ∧
    register_gadget capEngine "al" "p" .SNIPPET 2000000000000000 0 =
      Except.error (HaxError.InvalidGadgetId 2048) ∧
    (∃ e' g, register_gadget quotaEngine31 "al" "p" .SNIPPET 2000000000000000 0 =
      Except.ok (e', g) ∧ (agetD "al" e'.gadget_ids_by_owner []).length = 32) ∧
    register_gadget quotaEngine32 "al" "q" .SNIPPET 2000000000000000 0 =
      Except.error (HaxError.QuotaExceeded "al" 32 32) :=
  ⟨c1_register_precondition_order.1 (mkEngine true) "al" "p" .SNIPPET 2000000000000000 0 rfl,
   c1_register_precondition_order.2.1 (mkEngine false) "al" "p" .SNIPPET 7 0 rfl (by decide),
   c1_register_precondition_order.2.2.1 quotaEngine32 "al" "p" .SNIPPET 2000000000000000 0 rfl
     (by decide) (by decide),
   c1_register_precondition_order.2.2.2.1 capEngine "al" "p" .SNIPPET 2000000000000000 0 rfl
     (by decide) (by decide) (by decide),
   c1_register_precondition_order.2.2.2.2.1 quotaEngine31 "al" "p" .SNIPPET 2000000000000000 0 rfl
     (by decide) (by decide) (by decide),
   c1_register_precondition_order.2.2.2.2.2 quotaEngine32 "al" "q" .SNIPPET 2000000000000000 0 rfl
     (by decide) (by decide)⟩

/-- C2 counterexample: the claim says every mutating operation fails with
Paused while the engine is paused, but set_gadget_active performs no paused
check: on a paused engine holding gadget 1 owned by "al", the owner's
deactivation call succeeds and changes the engine state instead of failing
with Paused. -/
theorem c2_counterexample_set_active_ignores_paused :
    pausedEngine.paused = true ∧
    set_gadget_active pausedEngine 1 "al" false = Except.ok pausedEngineOff ∧
    pausedEngineOff ≠ pausedEngine := by
  refine ⟨rfl, rfl, ?_⟩
  decide

/-- C2 amended: when the engine is paused, register_gadget and claim_shortcut
fail with Paused (the error result carries no successor state, so the engine
is unchanged), but set_gadget_active performs no paused check: whenever the
gadget exists and the caller is its recorded owner, it succeeds and flips the
active flag even while paused. -/
theorem c2_paused_halts_register_and_claim_only :
    (∀ e o pl c f now, e.paused = true →
      register_gadget e o pl c f now = Except.error HaxError.Paused) ∧
    (∀ e gid cl now, e.paused = true →
      claim_shortcut e gid cl now = Except.error HaxError.Paused) ∧
    (∀ e gid o a g, e.paused = true → alookup gid e.gadgets = some g → g.owner = o →
      set_gadget_active e gid o a =
        Except.ok { e with gadgets := aset gid { g with active := a } e.gadgets }) := by
  refine ⟨?_, ?_, ?_⟩
  · intro e o pl c f now hp
    unfold register_gadget
    rw [hp]
    simp
  · intro e gid cl now hp
    unfold claim_shortcut
    rw [hp]
    simp
  · intro e gid o a g _ hg ho
    unfold set_gadget_active
    rw [hg]
    simp only
    rw [if_neg (by simp [ho])]

/-- C2 amended witness: the three branches on the paused engine with gadget 1. -/
theorem c2_paused_halts_register_and_claim_only_witness :
    register_gadget pausedEngine "al" "p" .SNIPPET 2000000000000000 0 =
      Except.error HaxError.Paused ∧
    claim_shortcut pausedEngine 1 "bob" 500 = Except.error HaxError.Paused ∧
    set_gadget_active pausedEngine 1 "al" false =
      Except.ok { pausedEngine with
        gadgets := aset 1 { gadget1 with active := false } pausedEngine.gadgets } :=
  ⟨c2_paused_halts_register_and_claim_only.1 pausedEngine "al" "p" .SNIPPET 2000000000000000 0 rfl,
   c2_paused_halts_register_and_claim_only.2.1 pausedEngine 1 "bob" 500 rfl,
   c2_paused_halts_register_and_claim_only.2.2 pausedEngine 1 "al" false gadget1 rfl rfl rfl⟩

/-- C3 counterexample: the claim says the cooldown check always passes for a
claimer who has never claimed, regardless of the current time; but the source
defaults the last claim time to 0, so on an unpaused engine with active
gadget 1 a never-seen claimer "bob" at time 30 (< 60) fails with
ClaimTooSoon. -/
theorem c3_counterexample_fresh_claimer_blocked :
    alookup "bob" activeEngine.last_claim_time = none ∧
    claim_shortcut activeEngine 1 "bob" 30 =
      Except.error (HaxError.ClaimTooSoon "bob" 60) :=
  ⟨rfl, rfl⟩

/-- C3 amended: with the other preconditions met (not paused, gadget exists
and is active), a claim fails with ClaimTooSoon exactly when the current time
is strictly less than the claimer's recorded last claim time plus 60, where
the last claim time defaults to 0 for a claimer who has never claimed — so a
never-claimed claimer passes the cooldown check exactly when the current time
is at least 60 (always, for realistic epoch-second clocks), and any claimer
succeeds once current time ≥ last claim time + 60. -/
theorem c3_cooldown_threshold (e : HackAppEngine) (gid : Nat) (cl : String) (now : Nat)
    (g : HaxGadget) (hp : e.paused = false) (hg : alookup gid e.gadgets = some g)
    (ha : g.active = true) :
    (claim_shortcut e gid cl now =
        Except.error (HaxError.ClaimTooSoon cl HAX_MIN_CLAIM_INTERVAL_SEC) ↔
      now < agetD cl e.last_claim_time 0 + HAX_MIN_CLAIM_INTERVAL_SEC) ∧
    (agetD cl e.last_claim_time 0 + HAX_MIN_CLAIM_INTERVAL_SEC ≤ now →
      ∃ p, claim_shortcut e gid cl now = Except.ok p) ∧
    (alookup cl e.last_claim_time = none →
      (claim_shortcut e gid cl now =
          Except.error (HaxError.ClaimTooSoon cl HAX_MIN_CLAIM_INTERVAL_SEC) ↔
        now < HAX_MIN_CLAIM_INTERVAL_SEC)) := by
  have hok := claim_shortcut_ok_eq e gid cl now g hp hg ha
  have herr := claim_shortcut_too_soon_eq e gid cl now g hp hg ha
  refine ⟨⟨fun h => ?_, herr⟩, fun hc => ⟨_, hok hc⟩, fun hnone => ?_⟩
  · by_contra hc
    rw [hok (by omega)] at h
    exact absurd h (by simp)
  · rw [show agetD cl e.last_claim_time 0 = 0 by simp [agetD, hnone]] at hok herr
    refine ⟨fun h => ?_, fun hc => herr (by omega)⟩
    by_contra hc
    rw [hok (by omega)] at h
    exact absurd h (by simp)

/-- C3 amended witness: on the engine where "bob" last claimed at 100, a
claim at 130 fails with ClaimTooSoon, a claim at 160 succeeds; a never-seen
claimer at time 30 fails and at time 60 succeeds on the fresh engine. -/
theorem c3_cooldown_threshold_witness :
    claim_shortcut cooldownEngine 1 "bob" 130 =
      Except.error (HaxError.ClaimTooSoon "bob" HAX_MIN_CLAIM_INTERVAL_SEC) ∧
    (∃ p, claim_shortcut cooldownEngine 1 "bob" 160 = Except.ok p) ∧
    claim_shortcut activeEngine 1 "cap" 30 =
      Except.error (HaxError.ClaimTooSoon "cap" HAX_MIN_CLAIM_INTERVAL_SEC) ∧
    (∃ p, claim_shortcut activeEngine 1 "cap" 60 = Except.ok p) :=
  ⟨(c3_cooldown_threshold cooldownEngine 1 "bob" 130 gadget1 rfl rfl rfl).1.mpr (by decide),
   (c3_cooldown_threshold cooldownEngine 1 "bob" 160 gadget1 rfl rfl rfl).2.1 (by decide),
   ((c3_cooldown_threshold activeEngine 1 "cap" 30 gadget1 rfl rfl rfl).2.2 rfl).mpr (by decide),
   (c3_cooldown_threshold activeEngine 1 "cap" 60 gadget1 rfl rfl rfl).2.1 (by decide)⟩

/-- C4 counterexample: the claim says the ClaimTooSoon error carries the
remaining wait (last claim time + 60 − now); with "bob" having last claimed
at 100, a claim at time 130 has remaining wait 30, yet the error produced by
the source carries 60. -/
theorem c4_counterexample_constant_wait :
    claim_shortcut cooldownEngine 1 "bob" 130 =
      Except.error (HaxError.ClaimTooSoon "bob" 60) ∧
    agetD "bob" cooldownEngine.last_claim_time 0 + 60 - 130 = 30 ∧
    (30 : Nat) ≠ 60 :=
  ⟨rfl, rfl, by decide⟩

/-- C4 amended: whenever claim_shortcut fails with ClaimTooSoon, the error
names the claimer and always carries the constant minimum claim interval 60
(HAX_MIN_CLAIM_INTERVAL_SEC), not the remaining wait; the failure does occur
exactly while now < last claim time + 60. -/
theorem c4_claim_too_soon_carries_constant (e : HackAppEngine) (gid : Nat) (cl : String)
    (now : Nat) (u : String) (w : Nat)
    (h : claim_shortcut e gid cl now = Except.error (HaxError.ClaimTooSoon u w)) :
    u = cl ∧ w = HAX_MIN_CLAIM_INTERVAL_SEC ∧
    now < agetD cl e.last_claim_time 0 + HAX_MIN_CLAIM_INTERVAL_SEC := by
  unfold claim_shortcut at h
  by_cases hp : e.paused = true
  · simp [hp] at h
  · have hpf : e.paused = false := by simpa using hp
    rw [hpf] at h
    simp only [Bool.false_eq_true, if_false] at h
    rcases hm : alookup gid e.gadgets with _ | g
    · rw [hm] at h
      simp at h
    · rw [hm] at h
      simp only at h
      by_cases ha : g.active = false
      · simp [ha] at h
      · rw [if_neg ha] at h
        by_cases hc : now < agetD cl e.last_claim_time 0 + HAX_MIN_CLAIM_INTERVAL_SEC
        · rw [if_pos hc] at h
          simp only [Except.error.injEq, HaxError.ClaimTooSoon.injEq] at h
          exact ⟨h.1.symm, h.2.symm, hc⟩
        · rw [if_neg hc] at h
          simp at h

/-- C4 amended witness: the ClaimTooSoon failure at time 130 (remaining wait
30) indeed names "bob" and carries the constant 60. -/
theorem c4_claim_too_soon_carries_constant_witness :
    ("bob" : String) = "bob" ∧ (60 : Nat) = HAX_MIN_CLAIM_INTERVAL_SEC ∧
    (130 : Nat) < agetD "bob" cooldownEngine.last_claim_time 0 + HAX_MIN_CLAIM_INTERVAL_SEC :=
  c4_claim_too_soon_carries_constant cooldownEngine 1 "bob" 130 "bob" 60 rfl

/-- C5: with the preconditions met, a successful claim awards 10 + (now mod
5) points (hence between 10 and 14 inclusive), creates the Shortcut record
under the next shortcut id with the claim data, increments the claimer's
shortcut count by 1, adds the score to the claimer's cumulative efficiency
score, sets the claimer's last-claim time to now, and increments the target
gadget's claim_count by 1. -/
theorem c5_claim_success_effects (e : HackAppEngine) (gid : Nat) (cl : String) (now : Nat)
    (e' : HackAppEngine) (s : HaxShortcut)
    (h : claim_shortcut e gid cl now = Except.ok (e', s)) :
    ∃ g, alookup gid e.gadgets = some g ∧
      s.score_added = 10 + now % 5 ∧
      10 ≤ s.score_added ∧ s.score_added ≤ 14 ∧
      s.shortcut_id = e.shortcut_nonce + 1 ∧
      s.gadget_id = gid ∧ s.claimer = cl ∧ s.claimed_at = now ∧
      e'.shortcut_nonce = e.shortcut_nonce + 1 ∧
      alookup s.shortcut_id e'.shortcuts = some s ∧
      agetD cl e'.shortcut_count_by_user 0 = agetD cl e.shortcut_count_by_user 0 + 1 ∧
      agetD cl e'.efficiency_score 0 = agetD cl e.efficiency_score 0 + s.score_added ∧
      agetD cl e'.last_claim_time 0 = now ∧
      alookup gid e'.gadgets = some { g with claim_count := g.claim_count + 1 } := by
  obtain ⟨g, hp, hg, ha, hc, hS, hE⟩ := claim_shortcut_ok_inv e gid cl now e' s h
  subst hS
  subst hE
  refine ⟨g, hg, rfl, ?_, ?_, rfl, rfl, rfl, rfl, rfl, ?_, ?_, ?_, ?_, ?_⟩
  · show 10 ≤ HAX_SCORE_BASE + now % 5
    unfold HAX_SCORE_BASE
    omega
  · show HAX_SCORE_BASE + now % 5 ≤ 14
    unfold HAX_SCORE_BASE
    omega
  · exact alookup_aset_self _ _ _
  · exact agetD_aset_self _ _ _ _
  · exact agetD_aset_self _ _ _ _
  · exact agetD_aset_self _ _ _ _
  · exact alookup_aset_self _ _ _

/-- C5 witness: claiming gadget 1 as "bob" at time 63 on the one-gadget
engine succeeds with shortcut id 1, awards 13 = 10 + 63 mod 5 points, sets
bob's cumulative score to 13 and bumps gadget 1's claim_count to 1. -/
theorem c5_claim_success_effects_witness :
    claim_shortcut activeEngine 1 "bob" 63 = Except.ok demoClaimPair ∧
    demoClaimPair.2.score_added = 13 ∧
    demoClaimPair.2.shortcut_id = 1 ∧
    agetD "bob" demoClaimPair.1.efficiency_score 0 = 13 ∧
    alookup 1 demoClaimPair.1.gadgets = some { gadget1 with claim_count := 1 } := by
  obtain ⟨g, hg, hscore, _, _, hsid, _, _, _, _, _, _, heff, _, hgad⟩ :=
    c5_claim_success_effects activeEngine 1 "bob" 63 demoClaimPair.1 demoClaimPair.2 rfl
  have hgg : g = gadget1 := by
    have h2 : (some g : Option HaxGadget) = some gadget1 := hg.symm.trans (by rfl)
    exact Option.some.inj h2
  rw [hgg] at hgad
  exact ⟨rfl, by rw [hscore], by rw [hsid]; rfl, by rw [heff, hscore]; rfl, hgad⟩

/-- C6: the tier resolution maps [0,99] to BRONZE, [100,499] to SILVER,
[500,1999] to GOLD, [2000,9999] to PLATINUM and every score ≥ 10000 to
LEGEND (the LEGEND member range covers 10000..10^9 and every score matched
by no member range — in particular any negative score or any score above
10^9 — falls through to the LEGEND default), so the resolution is total over
all integers. -/
theorem c6_tier_resolution (s : Int) :
    (0 ≤ s ∧ s ≤ 99 → HaxEfficiencyTier.from_score s = .BRONZE) ∧
    (100 ≤ s ∧ s ≤ 499 → HaxEfficiencyTier.from_score s = .SILVER) ∧
    (500 ≤ s ∧ s ≤ 1999 → HaxEfficiencyTier.from_score s = .GOLD) ∧
    (2000 ≤ s ∧ s ≤ 9999 → HaxEfficiencyTier.from_score s = .PLATINUM) ∧
    (10000 ≤ s → HaxEfficiencyTier.from_score s = .LEGEND) ∧
    (s < 0 → HaxEfficiencyTier.from_score s = .LEGEND) := by
  rw [from_score_eq]
  refine ⟨fun h => ?_, fun h => ?_, fun h => ?_, fun h => ?_, fun h => ?_, fun h => ?_⟩ <;>
    split_ifs <;> first | rfl | omega

/-- C6 witness: the six boundary scores named by the claim, plus a negative
score hitting the default. -/
theorem c6_tier_resolution_witness :
    HaxEfficiencyTier.from_score 99 = .BRONZE ∧
    HaxEfficiencyTier.from_score 100 = .SILVER ∧
    HaxEfficiencyTier.from_score 1999 = .GOLD ∧
    HaxEfficiencyTier.from_score 2000 = .PLATINUM ∧
    HaxEfficiencyTier.from_score 9999 = .PLATINUM ∧
    HaxEfficiencyTier.from_score 10000 = .LEGEND ∧
    HaxEfficiencyTier.from_score (-1) = .LEGEND :=
  ⟨(c6_tier_resolution 99).1 (by decide),
   (c6_tier_resolution 100).2.1 (by decide),
   (c6_tier_resolution 1999).2.2.1 (by decide),
   (c6_tier_resolution 2000).2.2.2.1 (by decide),
   (c6_tier_resolution 9999).2.2.2.1 (by decide),
   (c6_tier_resolution 10000).2.2.2.2.1 (by decide),
   (c6_tier_resolution (-1)).2.2.2.2.2 (by decide)⟩

/-- C7: for every non-negative total, the operator fee is
floor(total * 80 / 10000), the treasury share is the remainder, and the two
always sum back to the total; both functions read nothing but their
argument (their Lean embedding takes no engine state at all, mirroring the
module-level Python functions). -/
theorem c7_fee_split_total (total : Nat) :
    hax_operator_fee_wei total = total * 80 / 10000 ∧
    hax_treasury_wei total = total - hax_operator_fee_wei total ∧
    hax_operator_fee_wei total + hax_treasury_wei total = total := by
  have hle : hax_operator_fee_wei total ≤ total := by
    unfold hax_operator_fee_wei HAX_OPERATOR_FEE_BPS HAX_BPS_DENOM
    omega
  refine ⟨rfl, rfl, ?_⟩
  unfold hax_treasury_wei
  omega

/-- C8: gadget ids start at 1 (a fresh engine's counter is 0 and a success
returns id counter + 1), strictly increase by 1 per successful registration
(the counter advances to the issued id), and are never reused: on a
well-formed engine the new id is absent from the gadget map and is appended
to its key list, while claims and activation toggles (deactivation included)
never change the key list at all. -/
theorem c8_gadget_ids_monotone :
    (∀ p, (mkEngine p).gadget_nonce = 0) ∧
    (∀ e o pl c f now e' g, register_gadget e o pl c f now = Except.ok (e', g) →
      g.gadget_id = e.gadget_nonce + 1 ∧ e'.gadget_nonce = e.gadget_nonce + 1 ∧
      (EngineWF e → alookup g.gadget_id e.gadgets = none ∧
        e'.gadgets.map Prod.fst = e.gadgets.map Prod.fst ++ [g.gadget_id])) ∧
    (∀ e gid o a e', set_gadget_active e gid o a = Except.ok e' →
      e'.gadgets.map Prod.fst = e.gadgets.map Prod.fst) ∧
    (∀ e gid cl now e' s, claim_shortcut e gid cl now = Except.ok (e', s) →
      e'.gadgets.map Prod.fst = e.gadgets.map Prod.fst) := by
  refine ⟨fun p => rfl, ?_, ?_, ?_⟩
  · intro e o pl c f now e' g h
    obtain ⟨hp, hf, hq, hn, hG, hE⟩ := register_gadget_ok_inv e o pl c f now e' g h
    subst hG
    refine ⟨rfl, by rw [hE], fun hwf => ?_⟩
    have hnone : alookup (e.gadget_nonce + 1) e.gadgets = none := by
      apply alookup_eq_none
      rw [hwf.1]
      simp [mem_idsUpTo]
    refine ⟨hnone, ?_⟩
    rw [hE]
    show (aset (e.gadget_nonce + 1) _ e.gadgets).map Prod.fst = _
    rw [aset_of_alookup_none _ _ _ hnone, List.map_append]
    rfl
  · intro e gid o a e' h
    obtain ⟨g, hg, ho, hE⟩ := set_gadget_active_ok_inv e gid o a e' h
    rw [hE]
    exact map_fst_aset_of_alookup_some _ _ _ _ hg
  · intro e gid cl now e' s h
    obtain ⟨g, hp, hg, ha, hc, hS, hE⟩ := claim_shortcut_ok_inv e gid cl now e' s h
    rw [hE]
    exact map_fst_aset_of_alookup_some _ _ _ _ hg

/-- C8 witness: a first registration on a fresh engine issues id 1 = 0 + 1,
which was not previously a key and is appended to the key list. -/
theorem c8_gadget_ids_monotone_witness :
    (mkEngine false).gadget_nonce = 0 ∧
    demoRegPair.2.gadget_id = 1 ∧
    demoRegPair.1.gadget_nonce = 1 ∧
    alookup demoRegPair.2.gadget_id (mkEngine false).gadgets = none ∧
    demoRegPair.1.gadgets.map Prod.fst =
      (mkEngine false).gadgets.map Prod.fst ++ [demoRegPair.2.gadget_id] :=
  have hwf : EngineWF (mkEngine false) := ⟨rfl, by simp [mkEngine]⟩
  have h := c8_gadget_ids_monotone.2.1 (mkEngine false) "al" "p1" .SNIPPET HAX_FEE_WEI 5
    demoRegPair.1 demoRegPair.2 rfl
  ⟨c8_gadget_ids_monotone.1 false, h.1, h.2.1, (h.2.2 hwf).1, (h.2.2 hwf).2⟩

/-- C9: the claim says the JSON importer re-registers one gadget per
well-formed entry with zero fee and returns the number it imported; in fact
it hands fee_wei = 0 to register_gadget, which demands the fixed minimum fee
2000000000000000 (and checks the paused flag before that), so every entry,
well-formed or not, raises, is silently swallowed, and the importer always
returns count 0 with the engine unchanged. -/
theorem c9_import_always_zero (e : HackAppEngine) (entries : List HaxImportEntry) (now : Nat) :
    hax_import_gadgets_json e entries now = (e, 0) := by
  unfold hax_import_gadgets_json
  have h : ∀ (l : List HaxImportEntry) (acc : HackAppEngine × Nat),
      l.foldl (hax_import_step now) acc = acc := by
    intro l
    induction l with
    | nil => intro acc; rfl
    | cons x xs ih =>
      intro acc
      rw [List.foldl_cons, hax_import_step_id]
      exact ih acc
  exact h entries (e, 0)

/-- C10: the engine invariant — the gadget map's keys are exactly
1 .. gadget_nonce (in insertion order) with every stored gadget recording its
key as its gadget_id — holds initially and is preserved by register_gadget,
claim_shortcut and set_gadget_active (gadgets are never deleted), and under
it the total_gadgets figure of get_global_stats equals the number of gadget
records held. -/
theorem c10_gadget_map_invariant :
    (∀ p, EngineWF (mkEngine p)) ∧
    (∀ e o pl c f now e' g, EngineWF e →
      register_gadget e o pl c f now = Except.ok (e', g) → EngineWF e') ∧
    (∀ e gid cl now e' s, EngineWF e →
      claim_shortcut e gid cl now = Except.ok (e', s) → EngineWF e') ∧
    (∀ e gid o a e', EngineWF e →
      set_gadget_active e gid o a = Except.ok e' → EngineWF e') ∧
    (∀ e, EngineWF e → (get_global_stats e).total_gadgets = e.gadgets.length) := by
  refine ⟨fun p => ⟨rfl, by simp [mkEngine]⟩, ?_, ?_, ?_, ?_⟩
  · intro e o pl c f now e' g hwf h
    obtain ⟨hp, hf, hq, hn, hG, hE⟩ := register_gadget_ok_inv e o pl c f now e' g h
    subst hG
    have hnone : alookup (e.gadget_nonce + 1) e.gadgets = none := by
      apply alookup_eq_none
      rw [hwf.1]
      simp [mem_idsUpTo]
    rw [hE]
    constructor
    · show (aset (e.gadget_nonce + 1) _ e.gadgets).map Prod.fst = idsUpTo (e.gadget_nonce + 1)
      rw [aset_of_alookup_none _ _ _ hnone, List.map_append, hwf.1]
      rfl
    · intro p hp'
      rw [aset_of_alookup_none _ _ _ hnone] at hp'
      rcases List.mem_append.mp hp' with h' | h'
      · exact hwf.2 p h'
      · simp at h'
        rw [h']
  · intro e gid cl now e' s hwf h
    obtain ⟨g, hp, hg, ha, hc, hS, hE⟩ := claim_shortcut_ok_inv e gid cl now e' s h
    rw [hE]
    constructor
    · show (aset gid _ e.gadgets).map Prod.fst = idsUpTo e.gadget_nonce
      rw [map_fst_aset_of_alookup_some _ _ _ _ hg, hwf.1]
    · intro p hp'
      rcases mem_aset _ _ _ _ hp' with h' | h'
      · rw [h']
        exact hwf.2 (gid, g) (mem_of_alookup_some _ _ _ hg)
      · exact hwf.2 p h'
  · intro e gid o a e' hwf h
    obtain ⟨g, hg, ho, hE⟩ := set_gadget_active_ok_inv e gid o a e' h
    rw [hE]
    constructor
    · show (aset gid _ e.gadgets).map Prod.fst = idsUpTo e.gadget_nonce
      rw [map_fst_aset_of_alookup_some _ _ _ _ hg, hwf.1]
    · intro p hp'
      rcases mem_aset _ _ _ _ hp' with h' | h'
      · rw [h']
        exact hwf.2 (gid, g) (mem_of_alookup_some _ _ _ hg)
      · exact hwf.2 p h'
  · intro e hwf
    show e.gadget_nonce = e.gadgets.length
    have h := congrArg List.length hwf.1
    rw [List.length_map, length_idsUpTo] at h
    exact h.symm

/-- C10 witness: the fresh engine satisfies the invariant, the engine after
one registration still does, and its reported total_gadgets matches its
record count. -/
theorem c10_gadget_map_invariant_witness :
    EngineWF (mkEngine false) ∧ EngineWF demoRegPair.1 ∧
    (get_global_stats demoRegPair.1).total_gadgets = demoRegPair.1.gadgets.length :=
  have h0 : EngineWF (mkEngine false) := c10_gadget_map_invariant.1 false
  have h1 : EngineWF demoRegPair.1 :=
    c10_gadget_map_invariant.2.1 (mkEngine false) "al" "p1" .SNIPPET HAX_FEE_WEI 5
      demoRegPair.1 demoRegPair.2 h0 rfl
  ⟨h0, h1, c10_gadget_map_invariant.2.2.2.2 demoRegPair.1 h1⟩

end HackApp
